import Mathlib

/-!
Verification of the ros_atlas weighted pose-averaging kernel and its
configuration loader.

Sources embedded here:
* `src/unnamed/part_000` — the header declaring `WeightedMean` and
  `PassThroughFilter` (member declarations only; the implementation file
  `filter.cpp` is not in the repository snapshot, so the bodies of the
  `WeightedMean` operations are modelled from the specification and marked
  `Modelled from the spec:`).
* `src/src/config.cpp` — the YAML configuration loader, embedded directly
  from the source.

Real arithmetic is modelled by `ℚ` (exact); where IEEE-754 special values
are the point of a claim, a dedicated extended-value type `D` models a
double as finite, infinite or NaN.
-/

/-- A 3-component vector of rationals, modelling `tf2::Vector3` /
`Eigen::Vector3d` with exact arithmetic. -/
structure Vec3 where
  x : ℚ
  y : ℚ
  z : ℚ
  deriving DecidableEq

/-- Componentwise addition of 3-vectors. -/
def vadd (a b : Vec3) : Vec3 := ⟨a.x + b.x, a.y + b.y, a.z + b.z⟩

/-- Scalar multiplication of a 3-vector. -/
def vsmul (c : ℚ) (a : Vec3) : Vec3 := ⟨c * a.x, c * a.y, c * a.z⟩

/-- The zero 3-vector. -/
def vzero : Vec3 := ⟨0, 0, 0⟩

/-- A quaternion with components in the tf2 order x, y, z, w, modelling
`tf2::Quaternion` with exact arithmetic. -/
structure Quat where
  x : ℚ
  y : ℚ
  z : ℚ
  w : ℚ
  deriving DecidableEq

/-- The identity quaternion `{0,0,0,1}` (`tf2::Quaternion::getIdentity`). -/
def qIdent : Quat := ⟨0, 0, 0, 1⟩

/-- Negation of a quaternion; `q` and `qneg q` denote the same rotation. -/
def qneg (q : Quat) : Quat := ⟨-q.x, -q.y, -q.z, -q.w⟩

/-- The quaternion viewed as a 4-vector in a fixed component order
(x, y, z, w), the order used to build the accumulation matrix. -/
def qcomp (q : Quat) : Fin 4 → ℚ
  | 0 => q.x
  | 1 => q.y
  | 2 => q.z
  | 3 => q.w

/-- A 4×4 rational matrix, modelling the quaternion accumulation matrix. -/
def Matrix4 : Type := Fin 4 → Fin 4 → ℚ

/-- The zero 4×4 matrix. -/
def mzero : Matrix4 := fun _ _ => 0

/-- Entrywise sum of 4×4 matrices. -/
def maddM (A B : Matrix4) : Matrix4 := fun i j => A i j + B i j

/-- Scalar multiple of a 4×4 matrix. -/
def msmul (c : ℚ) (A : Matrix4) : Matrix4 := fun i j => c * A i j

/-- The outer product `q qᵀ` of a quaternion with itself, as a 4×4 matrix. -/
def outer (q : Quat) : Matrix4 := fun i j => qcomp q i * qcomp q j

/-- Modelled from the spec: the accumulator state of `WeightedMean`
(§3, §4.1) — the running weighted vector sum with its total weight, and the
running 4×4 quaternion accumulation matrix with its total weight. The
implementation file `filter.cpp` is not in the repository snapshot; only
the class declaration (src/unnamed/part_000) is, so this state follows the
spec's data model. -/
structure WeightedMeanModel where
  vecSum : Vec3
  vecW : ℚ
  quatM : Matrix4
  quatW : ℚ

/-- The zero state: zero sums and zero total weights. -/
def wmInit : WeightedMeanModel := ⟨vzero, 0, mzero, 0⟩

/-- Modelled from the spec: `WeightedMean::addVec3(vec, weight)` (§4.1) —
adds `weight * vector` to the running vector sum and `weight` to the
running vector-total-weight; no other state is touched and there is no
failure condition. `filter.cpp` is missing from src/. -/
def addVec3 (s : WeightedMeanModel) (v : Vec3) (w : ℚ) : WeightedMeanModel :=
  { s with vecSum := vadd s.vecSum (vsmul w v), vecW := s.vecW + w }

/-- Modelled from the spec: `WeightedMean::addQuat(quat, weight)` (§4.1) —
adds `weight * outer_product(q)` to the running 4×4 accumulation matrix and
`weight` to the running quaternion-total-weight. `filter.cpp` is missing
from src/. -/
def addQuat (s : WeightedMeanModel) (q : Quat) (w : ℚ) : WeightedMeanModel :=
  { s with quatM := maddM s.quatM (msmul w (outer q)), quatW := s.quatW + w }

/-- Modelled from the spec: `WeightedMean::clear()` (§4.1) — resets both
running sums and both total weights to the zero state; total, hence safe at
any time including before first use. `filter.cpp` is missing from src/. -/
def wmClear (_ : WeightedMeanModel) : WeightedMeanModel := wmInit

/-- Modelled from the spec: `WeightedMean::weightedMeanVec3()` (§4.1) —
returns `vectorSum / vectorTotalWeight` when the total weight is strictly
positive, and the zero vector otherwise. `filter.cpp` is missing from
src/. -/
def weightedMeanVec3 (s : WeightedMeanModel) : Vec3 :=
  if 0 < s.vecW then vsmul s.vecW⁻¹ s.vecSum else vzero

/-- Modelled from the spec: `WeightedMean::weightedMeanQuat()` (§4.1) —
returns the identity rotation when the quaternion total weight is zero, and
otherwise the dominant-eigenvector extraction applied to the accumulation
matrix and total weight. The eigenvector computation itself is numeric
(performed by the Eigen library) and is irrational in general, so it is
abstracted as the parameter `ext`: every claim proved about this function
holds for an arbitrary extraction, in particular for the Markley
dominant-eigenvector one. -/
def weightedMeanQuat (ext : Matrix4 → ℚ → Quat) (s : WeightedMeanModel) : Quat :=
  if s.quatW = 0 then qIdent else ext s.quatM s.quatW

/-- Applies a sequence of `addVec3` calls, in order. -/
def applyAddVec3s (obs : List (Vec3 × ℚ)) (s : WeightedMeanModel) : WeightedMeanModel :=
  match obs with
  | [] => s
  | (v, w) :: rest => applyAddVec3s rest (addVec3 s v w)

/-- Applies a sequence of `addQuat` calls, in order. -/
def applyAddQuats (obs : List (Quat × ℚ)) (s : WeightedMeanModel) : WeightedMeanModel :=
  match obs with
  | [] => s
  | (q, w) :: rest => applyAddQuats rest (addQuat s q w)

/-- The total weight `Σ wᵢ` of a sequence of weighted vectors. -/
def wTotal (obs : List (Vec3 × ℚ)) : ℚ :=
  match obs with
  | [] => 0
  | (_, w) :: rest => w + wTotal rest

/-- The weighted sum `Σ wᵢ·vᵢ` of a sequence of weighted vectors. -/
def wvSum (obs : List (Vec3 × ℚ)) : Vec3 :=
  match obs with
  | [] => vzero
  | (v, w) :: rest => vadd (vsmul w v) (wvSum rest)

lemma vadd_assoc_eq (a b c : Vec3) : vadd (vadd a b) c = vadd a (vadd b c) := by
  simp [vadd, add_assoc]

lemma vadd_vzero_eq (a : Vec3) : vadd a vzero = a := by
  simp [vadd, vzero]

lemma applyAddVec3s_vecW (obs : List (Vec3 × ℚ)) (s : WeightedMeanModel) :
    (applyAddVec3s obs s).vecW = s.vecW + wTotal obs := by
  induction obs generalizing s with
  | nil => simp [applyAddVec3s, wTotal]
  | cons p rest ih =>
    obtain ⟨v, w⟩ := p
    simp only [applyAddVec3s, wTotal, ih, addVec3]
    ring

lemma applyAddVec3s_vecSum (obs : List (Vec3 × ℚ)) (s : WeightedMeanModel) :
    (applyAddVec3s obs s).vecSum = vadd s.vecSum (wvSum obs) := by
  induction obs generalizing s with
  | nil => simp [applyAddVec3s, wvSum, vadd_vzero_eq]
  | cons p rest ih =>
    obtain ⟨v, w⟩ := p
    simp only [applyAddVec3s, wvSum, ih, addVec3, vadd_assoc_eq]

/-- Claim C1: for every sequence of `addVec3(vᵢ, wᵢ)` calls with weights
`wᵢ ≥ 0` starting from the fresh accumulator, `weightedMeanVec3()` returns
the weighted sum divided by the total weight, `Σ(wᵢ·vᵢ)/Σwᵢ`, whenever the
total weight is strictly positive; when the total weight is zero it returns
the zero vector. -/
theorem weightedMeanVec3_eq_weighted_average (obs : List (Vec3 × ℚ))
    (_hw : ∀ p ∈ obs, (0 : ℚ) ≤ p.2) :
    weightedMeanVec3 (applyAddVec3s obs wmInit) =
      if 0 < wTotal obs then vsmul (wTotal obs)⁻¹ (wvSum obs) else vzero := by
  have hW : (applyAddVec3s obs wmInit).vecW = wTotal obs := by
    simp [applyAddVec3s_vecW, wmInit]
  have hS : (applyAddVec3s obs wmInit).vecSum = wvSum obs := by
    simp [applyAddVec3s_vecSum, wmInit, vzero, vadd]
  simp [weightedMeanVec3, hW, hS]

/-- Witness for C1: adding `(1,0,0)` with weight 1 and `(0,1,0)` with
weight 1 gives the mean `(1/2, 1/2, 0)`. -/
theorem weightedMeanVec3_eq_weighted_average_witness :
    weightedMeanVec3 (applyAddVec3s [(⟨1, 0, 0⟩, 1), (⟨0, 1, 0⟩, 1)] wmInit) =
      vsmul (1 / 2) ⟨1, 1, 0⟩ := by
  have h := weightedMeanVec3_eq_weighted_average
    [(⟨1, 0, 0⟩, 1), (⟨0, 1, 0⟩, 1)] (by decide)
  rw [h]
  norm_num [wTotal, wvSum, vsmul, vadd, vzero]

lemma outer_qneg (q : Quat) : outer (qneg q) = outer q := by
  funext i j
  have h : ∀ k : Fin 4, qcomp (qneg q) k = -qcomp q k := by
    intro k
    fin_cases k <;> simp [qcomp, qneg]
  simp [outer, h]

/-- Replaces the j-th element (0-based) of a weighted-quaternion sequence
with its negation; out-of-range indices leave the sequence unchanged. -/
def negAt (j : ℕ) (obs : List (Quat × ℚ)) : List (Quat × ℚ) :=
  match j, obs with
  | _, [] => []
  | 0, (q, w) :: rest => (qneg q, w) :: rest
  | n + 1, p :: rest => p :: negAt n rest

lemma applyAddQuats_negAt (j : ℕ) (obs : List (Quat × ℚ)) (s : WeightedMeanModel) :
    applyAddQuats (negAt j obs) s = applyAddQuats obs s := by
  induction obs generalizing j s with
  | nil => cases j <;> rfl
  | cons p rest ih =>
    obtain ⟨q, w⟩ := p
    cases j with
    | zero => simp [negAt, applyAddQuats, addQuat, outer_qneg]
    | succ n => simp [negAt, applyAddQuats, ih]

/-- Claim C2: for every sequence of `addQuat(qᵢ, wᵢ)` calls, negating any
one input quaternion leaves the result of `weightedMeanQuat()` unchanged
(hence in particular unchanged up to the result's own sign), for every
extraction function `ext` — the accumulated state itself is identical
because the outer product is sign-invariant. -/
theorem weightedMeanQuat_negAt_invariant (ext : Matrix4 → ℚ → Quat)
    (obs : List (Quat × ℚ)) (j : ℕ) (s : WeightedMeanModel) :
    weightedMeanQuat ext (applyAddQuats (negAt j obs) s) =
      weightedMeanQuat ext (applyAddQuats obs s) := by
  rw [applyAddQuats_negAt]

/-- Claim C7: `clear()` resets both running sums and both total weights to
the zero state, is a total operation (safe in any state, including the
fresh one), and after it `weightedMeanVec3()` returns the zero vector and
`weightedMeanQuat()` returns the identity rotation, for every extraction
function. -/
theorem wmClear_resets_and_defaults (ext : Matrix4 → ℚ → Quat)
    (s : WeightedMeanModel) :
    wmClear s = wmInit ∧
      weightedMeanVec3 (wmClear s) = vzero ∧
      weightedMeanQuat ext (wmClear s) = qIdent := by
  refine ⟨rfl, ?_, ?_⟩
  · simp [wmClear, weightedMeanVec3, wmInit]
  · simp [wmClear, weightedMeanQuat, wmInit]

lemma addVec3_zero_weight (s : WeightedMeanModel) (v : Vec3) :
    addVec3 s v 0 = s := by
  simp [addVec3, vadd, vsmul]

/-- Claim C8: a zero-weight contribution is a no-op — for every state and
vector, `addVec3(v, 0)` leaves the subsequently observed mean (after any
further sequence of `addVec3` calls) identical to not calling it at all. -/
theorem addVec3_zero_weight_noop (s : WeightedMeanModel) (v : Vec3)
    (rest : List (Vec3 × ℚ)) :
    weightedMeanVec3 (applyAddVec3s rest (addVec3 s v 0)) =
      weightedMeanVec3 (applyAddVec3s rest s) := by
  rw [addVec3_zero_weight]

/-- The private members of class `WeightedMean` as declared in the header
(src/unnamed/part_000, lines 21–26): `Eigen::Vector3d m_vectors`,
`Eigen::Matrix4Xd m_quats`, `double m_vectorWeights`. `Eigen::Matrix4Xd`
abbreviates `Eigen::Matrix<double, 4, Eigen::Dynamic>` — four rows and a
dynamic number of columns — modelled here as a list of 4-component columns.
These are all the members: in particular the header declares no quaternion
total-weight member. -/
structure WeightedMeanDecl where
  m_vectors : Vec3
  m_quats : List (Fin 4 → ℚ)
  m_vectorWeights : ℚ

/-- The member names of `WeightedMean`, in declaration order, from the
header (src/unnamed/part_000, lines 21–26). -/
def weightedMeanFieldNames : List String :=
  ["m_vectors", "m_quats", "m_vectorWeights"]

/-- Number of stored scalars of a `WeightedMeanDecl` value: 3 for
`m_vectors`, 4 per column of the dynamically sized `m_quats`, and 1 for
`m_vectorWeights`. -/
def WeightedMeanDecl.scalarCount (s : WeightedMeanDecl) : ℕ :=
  3 + 4 * s.m_quats.length + 1

/-- Counterexample to Claim C3: the declared quaternion accumulator state
of `WeightedMean` is not a fixed-size 4×4 matrix — `m_quats` has type
`Eigen::Matrix4Xd` (dynamic column count), so two legal states of the
declared class differ in stored size (here 4 scalars versus 8). -/
theorem weightedMeanDecl_not_constant_size :
    WeightedMeanDecl.scalarCount ⟨vzero, [], 0⟩ ≠
      WeightedMeanDecl.scalarCount ⟨vzero, [fun _ => 0], 0⟩ := by
  decide

/-- Claim C3 as amended: the quaternion accumulator member `m_quats` of
`WeightedMean` is declared as a dynamically sized 4×N matrix
(`Eigen::Matrix4Xd`), whose storage admits any number of columns — the
declared state is not of constant size — and the only running total-weight
member is `m_vectorWeights` (for vectors); no quaternion total-weight
member is declared. -/
theorem weightedMeanDecl_dynamic_columns :
    (∀ n : ℕ, ∃ s : WeightedMeanDecl,
        s.m_quats.length = n ∧ s.scalarCount = 4 + 4 * n) ∧
      "m_quatWeights" ∉ weightedMeanFieldNames := by
  constructor
  · intro n
    refine ⟨⟨vzero, List.replicate n (fun _ => 0), 0⟩, ?_, ?_⟩
    · simp
    · simp [WeightedMeanDecl.scalarCount]
      ring
  · decide

/-- The members of class `PassThroughFilter` from the header
(src/unnamed/part_000, lines 34–37): `Eigen::Vector3d m_vectors` and
`Eigen::Matrix4Xd m_quats` (4 rows, dynamic column count, modelled as a
list of columns). -/
structure PassThroughFilterState where
  m_vectors : Vec3
  m_quats : List (Fin 4 → ℚ)

/-- The fresh pass-through state: zero vector, no stored columns. -/
def ptInit : PassThroughFilterState := ⟨vzero, []⟩

/-- Modelled from the spec: `PassThroughFilter::addVec3(vec)` (§4.2, §3) —
the pass-through variant keeps only the last-seen raw vector, overwriting
in place (O(1) state per call); the member bodies are not in src/. Per the
header (line 31) it takes no weight argument. -/
def ptAddVec3 (s : PassThroughFilterState) (v : Vec3) : PassThroughFilterState :=
  { s with m_vectors := v }

/-- Modelled from the spec: `PassThroughFilter::addQuat(quat)` (§4.2, §3) —
keeps only the last-seen raw quaternion as the single stored column,
overwriting in place (O(1) state per call); the member bodies are not in
src/. Per the header (line 32) it takes no weight argument. -/
def ptAddQuat (s : PassThroughFilterState) (q : Quat) : PassThroughFilterState :=
  { s with m_quats := [qcomp q] }

/-- One call into a `PassThroughFilter`: either a vector or a quaternion. -/
inductive PTCall where
  | vec (v : Vec3)
  | quat (q : Quat)

/-- Applies a sequence of pass-through calls, in order. -/
def applyPTCalls (calls : List PTCall) (s : PassThroughFilterState) :
    PassThroughFilterState :=
  match calls with
  | [] => s
  | PTCall.vec v :: rest => applyPTCalls rest (ptAddVec3 s v)
  | PTCall.quat q :: rest => applyPTCalls rest (ptAddQuat s q)

/-- Number of stored scalars of a pass-through state: 3 for `m_vectors`
plus 4 per stored column of `m_quats`. -/
def PassThroughFilterState.scalarCount (s : PassThroughFilterState) : ℕ :=
  3 + 4 * s.m_quats.length

lemma applyPTCalls_quats_le (calls : List PTCall) (s : PassThroughFilterState)
    (h : s.m_quats.length ≤ 1) :
    (applyPTCalls calls s).m_quats.length ≤ 1 := by
  induction calls generalizing s with
  | nil => exact h
  | cons c rest ih =>
    cases c with
    | vec v => exact ih (ptAddVec3 s v) h
    | quat q => exact ih (ptAddQuat s q) (by simp [ptAddQuat])

/-- Claim C4: for every sequence of `addVec3`/`addQuat` calls on a fresh
`PassThroughFilter`, the stored state stays of constant, bounded size —
each call overwrites rather than appends, so arbitrarily many calls cause
no unbounded growth (never more than 7 stored scalars: the last-seen vector
and at most one stored quaternion column). -/
theorem passThroughFilter_constant_size (calls : List PTCall) :
    (applyPTCalls calls ptInit).scalarCount ≤ 7 := by
  have h := applyPTCalls_quats_le calls ptInit (by simp [ptInit])
  simp only [PassThroughFilterState.scalarCount]
  omega

/-- An IEEE-754 double restricted to the values the non-finite-input claims
need: a finite value (exact, as a rational), the two infinities, or NaN. -/
inductive D where
  | fin (q : ℚ)
  | pinf
  | ninf
  | nan
  deriving DecidableEq

/-- IEEE-754 addition on extended values: NaN propagates, opposite
infinities give NaN, an infinity absorbs finite addends. -/
def D.add : D → D → D
  | D.nan, _ => D.nan
  | _, D.nan => D.nan
  | D.fin a, D.fin b => D.fin (a + b)
  | D.fin _, D.pinf => D.pinf
  | D.pinf, D.fin _ => D.pinf
  | D.fin _, D.ninf => D.ninf
  | D.ninf, D.fin _ => D.ninf
  | D.pinf, D.pinf => D.pinf
  | D.ninf, D.ninf => D.ninf
  | D.pinf, D.ninf => D.nan
  | D.ninf, D.pinf => D.nan

/-- IEEE-754 multiplication on extended values: NaN propagates, zero times
an infinity gives NaN, signs combine otherwise. -/
def D.mul : D → D → D
  | D.nan, _ => D.nan
  | _, D.nan => D.nan
  | D.fin a, D.fin b => D.fin (a * b)
  | D.fin a, D.pinf => if 0 < a then D.pinf else if a < 0 then D.ninf else D.nan
  | D.fin a, D.ninf => if 0 < a then D.ninf else if a < 0 then D.pinf else D.nan
  | D.pinf, D.fin b => if 0 < b then D.pinf else if b < 0 then D.ninf else D.nan
  | D.ninf, D.fin b => if 0 < b then D.ninf else if b < 0 then D.pinf else D.nan
  | D.pinf, D.pinf => D.pinf
  | D.pinf, D.ninf => D.ninf
  | D.ninf, D.pinf => D.ninf
  | D.ninf, D.ninf => D.pinf

/-- A 3-vector of extended doubles. -/
structure DVec3 where
  x : D
  y : D
  z : D
  deriving DecidableEq

/-- The vector-accumulator part of `WeightedMean` over extended doubles:
the running vector sum and the running vector total weight. -/
structure WeightedMeanD where
  vecSum : DVec3
  vecW : D
  deriving DecidableEq

/-- The fresh extended-double accumulator: zero sum and zero weight. -/
def wmInitD : WeightedMeanD :=
  ⟨⟨D.fin 0, D.fin 0, D.fin 0⟩, D.fin 0⟩

/-- Modelled from the spec: `WeightedMean::addVec3(vec, weight)` (§4.1)
over IEEE-754 extended values — adds `weight * vector` to the running sum
and `weight` to the running total weight unconditionally; per §4.1 there is
no failure condition and no finiteness check ("malformed (NaN/Inf) inputs
propagate silently into the sum"). `filter.cpp` is missing from src/. -/
def addVec3D (s : WeightedMeanD) (v : DVec3) (w : D) : WeightedMeanD :=
  { s with
    vecSum := ⟨D.add s.vecSum.x (D.mul w v.x),
               D.add s.vecSum.y (D.mul w v.y),
               D.add s.vecSum.z (D.mul w v.z)⟩,
    vecW := D.add s.vecW w }

/-- Counterexample to Claim C6: `addVec3` does not reject a NaN input and
does not leave the state unchanged — adding the vector `(NaN, 0, 0)` with
weight 1 to the fresh accumulator changes the state, setting the x
component of the running sum to NaN and the total weight to 1. -/
theorem addVec3D_nan_not_rejected :
    addVec3D wmInitD ⟨D.nan, D.fin 0, D.fin 0⟩ (D.fin 1) ≠ wmInitD ∧
      (addVec3D wmInitD ⟨D.nan, D.fin 0, D.fin 0⟩ (D.fin 1)).vecSum.x = D.nan ∧
      (addVec3D wmInitD ⟨D.nan, D.fin 0, D.fin 0⟩ (D.fin 1)).vecW = D.fin 1 := by
  refine ⟨?_, rfl, ?_⟩
  · decide
  · simp [addVec3D, wmInitD, D.add]

lemma D.mul_nan (w : D) : D.mul w D.nan = D.nan := by
  cases w <;> rfl

lemma D.add_nan (a : D) : D.add a D.nan = D.nan := by
  cases a <;> rfl

/-- Claim C6 as amended: `addVec3` performs no finiteness check — a NaN
component in the input vector propagates into the corresponding component
of the running sum (poisoning it, whatever the weight), and the weight is
still accumulated into the running total; filtering non-finite inputs is
the caller's responsibility. -/
theorem addVec3D_nan_poisons (s : WeightedMeanD) (v : DVec3) (w : D)
    (h : v.x = D.nan) :
    (addVec3D s v w).vecSum.x = D.nan ∧
      (addVec3D s v w).vecW = D.add s.vecW w := by
  refine ⟨?_, rfl⟩
  simp [addVec3D, h, D.mul_nan, D.add_nan]

/-- Witness for the amended C6: the concrete NaN input from the
counterexample poisons the running sum's x component and bumps the total
weight. -/
theorem addVec3D_nan_poisons_witness :
    (addVec3D wmInitD ⟨D.nan, D.fin 0, D.fin 0⟩ (D.fin 1)).vecSum.x = D.nan ∧
      (addVec3D wmInitD ⟨D.nan, D.fin 0, D.fin 0⟩ (D.fin 1)).vecW =
        D.add (D.fin 0) (D.fin 1) :=
  addVec3D_nan_poisons wmInitD ⟨D.nan, D.fin 0, D.fin 0⟩ (D.fin 1) rfl

/-- A YAML scalar as yaml-cpp delivers it after conversion: a number, a
string, or a boolean; the textual-to-typed conversion performed by
`node.as<T>` is modelled by carrying the typed value. -/
inductive YScalar where
  | num (q : ℚ)
  | str (s : String)
  | flag (b : Bool)

/-- A YAML node: undefined (the falsy node yaml-cpp returns for a missing
key), a scalar, a sequence, or a mapping with string keys. -/
inductive YNode where
  | undef
  | scalar (v : YScalar)
  | seq (items : List YNode)
  | map (pairs : List (String × YNode))

/-- Truthiness of a node (`if (node)` in C++): everything but the
undefined node. -/
def yIsDef : YNode → Bool
  | YNode.undef => false
  | _ => true

/-- Key lookup `node["key"]`: on a mapping returns the value (or the
undefined node), on anything else the undefined node. -/
def yget (n : YNode) (k : String) : YNode :=
  match n with
  | YNode.map pairs => (pairs.lookup k).getD YNode.undef
  | _ => YNode.undef

/-- Index access `node[i]` on a sequence; the undefined node otherwise. -/
def yidx (n : YNode) (i : ℕ) : YNode :=
  match n with
  | YNode.seq items => items.getD i YNode.undef
  | _ => YNode.undef

/-- Size of a node (`node.size()`): length of a sequence or mapping, zero
for scalars and undefined nodes. -/
def ysize : YNode → ℕ
  | YNode.seq items => items.length
  | YNode.map pairs => pairs.length
  | _ => 0

/-- The nodes iterated over by a C++ range-for on a node: the elements of
a sequence, nothing otherwise. -/
def ylist : YNode → List YNode
  | YNode.seq items => items
  | _ => []

/-- `node.as<double>()` without fallback: succeeds only on a numeric
scalar; `none` models the `YAML::BadConversion` exception. -/
def asNumE : YNode → Option ℚ
  | YNode.scalar (YScalar.num q) => some q
  | _ => none

/-- `node.as<double>(fallback)`: the numeric value of a numeric scalar,
the fallback otherwise (missing node or failed conversion). -/
def asNumD (d : ℚ) : YNode → ℚ
  | YNode.scalar (YScalar.num q) => q
  | _ => d

/-- `node.as<std::string>(fallback)`: the string value of a string scalar,
the fallback otherwise. -/
def asStrD (d : String) : YNode → String
  | YNode.scalar (YScalar.str s) => s
  | _ => d

/-- `node.as<int>(fallback)`: the value of an integral numeric scalar, the
fallback otherwise. -/
def asIntD (d : ℤ) : YNode → ℤ
  | YNode.scalar (YScalar.num q) => if q.den = 1 then q.num else d
  | _ => d

/-- `node.as<bool>(fallback)`: the value of a boolean scalar, the fallback
otherwise. -/
def asBoolD (d : Bool) : YNode → Bool
  | YNode.scalar (YScalar.flag b) => b
  | _ => d

/-- A diagnostic emitted by the configuration loader (`ROS_WARN` /
`ROS_ERROR` in config.cpp); all of them log and continue — none aborts. -/
inductive CfgWarn where
  | rotSize (n : ℕ)
  | originSize (n : ℕ)
  | emptyDoc
  | noEntities
  | noOptions
  deriving DecidableEq

/-- The rotation produced by `Config::parseTransform`: either a quaternion
taken componentwise from a 4-element `rot` array (or the identity default),
or — for a 3-element array — the quaternion `tf2::Quaternion::setRPY`
builds from the three angles (degrees, converted by
`angles::from_degrees`). The trigonometric Euler-to-quaternion conversion
is kept symbolic: the constructor records the three raw degree values. -/
inductive Rot where
  | ofQuat (q : Quat)
  | ofRPY (a b c : ℚ)
  deriving DecidableEq

/-- The result of `Config::parseTransform`, modelling `tf2::Transform`.
The origin is an `Option`: `tf2::Vector3 origin;` in config.cpp line 70 is
the no-initialization constructor, so on the branches that never assign it
the returned origin holds indeterminate (uninitialized) memory, modelled
as `none`. -/
structure Transform where
  rot : Rot
  origin : Option Vec3
  deriving DecidableEq

/-- The rotation block of `Config::parseTransform` (config.cpp lines
46–67): `rot` starts as the identity quaternion; a 4-element array sets it
componentwise, a 3-element array goes through `setRPY`, and any other
nonzero size only warns, leaving the identity. -/
def parseRot (node : YNode) : Option (Rot × List CfgWarn) :=
  match ysize (yget node "rot") with
  | 4 =>
    (asNumE (yidx (yget node "rot") 0)).bind fun a =>
    (asNumE (yidx (yget node "rot") 1)).bind fun b =>
    (asNumE (yidx (yget node "rot") 2)).bind fun c =>
    (asNumE (yidx (yget node "rot") 3)).map fun d =>
      (Rot.ofQuat ⟨a, b, c, d⟩, ([] : List CfgWarn))
  | 3 =>
    (asNumE (yidx (yget node "rot") 0)).bind fun a =>
    (asNumE (yidx (yget node "rot") 1)).bind fun b =>
    (asNumE (yidx (yget node "rot") 2)).map fun c =>
      (Rot.ofRPY a b c, ([] : List CfgWarn))
  | 0 => some (Rot.ofQuat qIdent, [])
  | n + 1 => some (Rot.ofQuat qIdent, [CfgWarn.rotSize (n + 1)])

/-- The origin block of `Config::parseTransform` (config.cpp lines 69–81):
a 3-element `origin` array fills the vector; any other nonzero size only
warns, and an absent array does nothing — on those branches the
default-constructed `tf2::Vector3` is returned unassigned, i.e.
uninitialized, modelled as `none`. -/
def parseOrigin (node : YNode) : Option (Option Vec3 × List CfgWarn) :=
  match ysize (yget node "origin") with
  | 3 =>
    (asNumE (yidx (yget node "origin") 0)).bind fun a =>
    (asNumE (yidx (yget node "origin") 1)).bind fun b =>
    (asNumE (yidx (yget node "origin") 2)).map fun c =>
      ((some ⟨a, b, c⟩ : Option Vec3), ([] : List CfgWarn))
  | 0 => some ((none : Option Vec3), ([] : List CfgWarn))
  | n + 1 => some ((none : Option Vec3), [CfgWarn.originSize (n + 1)])

/-- `Config::parseTransform` (config.cpp lines 41–84): the identity
transform for an undefined node; otherwise the rotation block then the
origin block, collecting warnings. `none` overall models a thrown
`YAML::BadConversion` from the element conversions `as<double>()`. -/
def parseTransform (node : YNode) : Option (Transform × List CfgWarn) :=
  if yIsDef node then
    (parseRot node).bind fun rw =>
      (parseOrigin node).map fun ow => (⟨rw.1, ow.1⟩, rw.2 ++ ow.2)
  else some (⟨Rot.ofQuat qIdent, some vzero⟩, [])

/-- The sensor type tag. Modelled from the spec: the enum `Sensor::Type`
is declared in config.h, which is not in src/; config.cpp's `typeMap`
gives the two enumerator names, and the spec (§3) the same two-valued
type tag. -/
inductive SensorType where
  | MarkerBased
  | NonMarkerBased
  deriving DecidableEq

/-- The `typeMap` of `Config::parseRoot` (config.cpp lines 89–92). -/
def typeMap : List (String × SensorType) :=
  [("MarkerBased", SensorType.MarkerBased),
   ("NonMarkerBased", SensorType.NonMarkerBased)]

/-- `typeMap[name]` via `std::map::operator[]`: a missing key
value-initializes a `Sensor::Type`, i.e. yields the enumerator of value
zero — `MarkerBased`, the first name the code associates (config.h is not
in src/; this zero-value branch is only reached for type strings outside
the map, which no claim exercises). -/
def lookupType (s : String) : SensorType :=
  (typeMap.lookup s).getD SensorType.MarkerBased

/-- The fields of a `Sensor`, as filled by `Config::parseRoot`
(config.cpp lines 113–125). -/
structure Sensor where
  name : String
  topic : String
  type : SensorType
  sigma : ℚ
  target : String
  transf : Transform
  deriving DecidableEq

/-- The fields of a `Marker`, as filled by `Config::parseRoot`
(config.cpp lines 128–135). -/
structure Marker where
  id : ℤ
  transf : Transform
  deriving DecidableEq

/-- The per-entity filter configuration read by `Config::parseRoot`
(config.cpp line 110). -/
structure FilterConfig where
  alpha : ℚ
  deriving DecidableEq

/-- The fields of an `Entity`, as filled by `Config::parseRoot`
(config.cpp lines 104–138). -/
structure Entity where
  name : String
  filterConfig : FilterConfig
  sensors : List Sensor
  markers : List Marker
  deriving DecidableEq

/-- The global `Options`, as filled by `Config::parseRoot`
(config.cpp lines 144–154). -/
structure Options where
  dbgGraphFilename : String
  dbgGraphInterval : ℚ
  loopRate : ℚ
  decayDuration : ℚ
  publishMarkers : Bool
  publishWorldSensors : Bool
  publishEntitySensors : Bool
  publishPoseTopics : Bool
  deriving DecidableEq

/-- Maps a fallible parser over a list, failing at the first failure — the
shape of the C++ loops that parse each child node and can throw. -/
def optMap {A B : Type} (f : A → Option B) : List A → Option (List B)
  | [] => some []
  | a :: rest => (f a).bind fun b => (optMap f rest).map fun bs => b :: bs

/-- One sensor entry of `Config::parseRoot` (config.cpp lines 113–125):
every field falls back to a documented default when absent; only the
transform parse can throw. -/
def parseSensor (sensor : YNode) : Option (Sensor × List CfgWarn) :=
  (parseTransform (yget sensor "transform")).map fun tw =>
    (⟨asStrD "undefined" (yget sensor "sensor"),
      asStrD "undefined" (yget sensor "topic"),
      lookupType (asStrD "MarkerBased" (yget sensor "type")),
      asNumD 1 (yget sensor "sigma"),
      asStrD "undefined" (yget sensor "target"),
      tw.1⟩, tw.2)

/-- One marker entry of `Config::parseRoot` (config.cpp lines 128–135). -/
def parseMarker (marker : YNode) : Option (Marker × List CfgWarn) :=
  (parseTransform (yget marker "transform")).map fun tw =>
    (⟨asIntD (-1) (yget marker "marker"), tw.1⟩, tw.2)

/-- One entity entry of `Config::parseRoot` (config.cpp lines 104–138):
name and smoothing alpha with their defaults, then the sensor and marker
lists in order. -/
def parseEntity (entity : YNode) : Option (Entity × List CfgWarn) :=
  match optMap parseSensor (ylist (yget entity "sensors")),
        optMap parseMarker (ylist (yget entity "markers")) with
  | some srs, some mrs =>
    some (⟨asStrD "undefined" (yget entity "entity"),
           ⟨asNumD (1 / 10) (yget entity "filterAlpha")⟩,
           srs.map Prod.fst, mrs.map Prod.fst⟩,
          (srs.map Prod.snd).flatten ++ (mrs.map Prod.snd).flatten)
  | _, _ => none

/-- The options block of `Config::parseRoot` (config.cpp lines 144–154),
with the documented defaults. -/
def parseOptions (options : YNode) : Options :=
  ⟨asStrD "" (yget options "dbgDumpGraphFilename"),
   asNumD 0 (yget options "dbgDumpGraphInterval"),
   asNumD 60 (yget options "loopRate"),
   asNumD (1 / 4) (yget options "decayDuration"),
   asBoolD true (yget options "publishMarkers"),
   asBoolD true (yget options "publishWorldSensors"),
   asBoolD true (yget options "publishEntitySensors"),
   asBoolD true (yget options "publishPoseTopics")⟩

/-- The state of a `Config` object: the entity list `m_entities` and the
options `m_options` (config.h members as used throughout config.cpp). -/
structure Config where
  m_entities : List Entity
  m_options : Options

/-- `Config::entities()` (config.cpp lines 162–165). -/
def Config.entities (c : Config) : List Entity := c.m_entities

/-- The sanity-check diagnostics at the head of `Config::parseRoot`
(config.cpp lines 94–101): an empty document is an `ROS_ERROR`, missing
`entities` or `options` keys are warnings; all of them log and continue. -/
def rootWarns (node : YNode) : List CfgWarn :=
  (if yIsDef node then [] else [CfgWarn.emptyDoc]) ++
    (if yIsDef (yget node "entities") then [] else [CfgWarn.noEntities]) ++
    (if yIsDef (yget node "options") then [] else [CfgWarn.noOptions])

/-- `Config::parseRoot` (config.cpp lines 86–155): pushes each parsed
entity onto the existing `m_entities` (never clearing it), then overwrites
`m_options` when an `options` node is present, keeping the previous
options otherwise. `none` models a thrown `YAML::BadConversion`. -/
def parseRoot (cfg : Config) (node : YNode) : Option (Config × List CfgWarn) :=
  match optMap parseEntity (ylist (yget node "entities")) with
  | some parsed =>
    some (⟨cfg.m_entities ++ parsed.map Prod.fst,
           if yIsDef (yget node "options") then
             parseOptions (yget node "options")
           else cfg.m_options⟩,
          rootWarns node ++ (parsed.map Prod.snd).flatten)
  | none => none

/-- `Config::loadFromString` (config.cpp lines 35–39): parses the string
with yaml-cpp (external; the input is modelled as the already-parsed node)
and runs `parseRoot` on the existing object. -/
def loadFromString (cfg : Config) (node : YNode) : Option (Config × List CfgWarn) :=
  parseRoot cfg node

/-- The entity list a single document contributes, with warnings
dropped. -/
def docEntityList (node : YNode) : Option (List Entity) :=
  (optMap parseEntity (ylist (yget node "entities"))).map (List.map Prod.fst)

/-- A transform node holding only a rotation — the identity quaternion
`[0,0,0,1]` — and no `origin` key. -/
def transformNoOrigin : YNode :=
  YNode.map [("rot", YNode.seq
    [YNode.scalar (YScalar.num 0), YNode.scalar (YScalar.num 0),
     YNode.scalar (YScalar.num 0), YNode.scalar (YScalar.num 1)])]

/-- Claim C5, at the failing input: on a transform node whose `origin`
array is absent, `Config::parseTransform` parses the rotation as claimed
but returns the default-constructed `tf2::Vector3` without ever assigning
it — an uninitialized origin (`none`), not the documented zero vector the
claim (and the code's own warning text) promises. -/
theorem parseTransform_origin_uninitialized :
    parseTransform transformNoOrigin =
      some (⟨Rot.ofQuat qIdent, none⟩, []) ∧ (none : Option Vec3) ≠ some vzero := by
  constructor
  · rfl
  · simp

/-- Claim C9: for every entity node with no `filterAlpha` key, the parsed
per-entity smoothing alpha is exactly `0.1`, the default supplied at
config.cpp line 110. -/
theorem parseEntity_default_alpha (entity : YNode)
    (h : yget entity "filterAlpha" = YNode.undef)
    (e : Entity) (ws : List CfgWarn)
    (he : parseEntity entity = some (e, ws)) :
    e.filterConfig.alpha = 1 / 10 := by
  rcases hs : optMap parseSensor (ylist (yget entity "sensors")) with _ | srs
  · simp [parseEntity, hs] at he
  · rcases hm : optMap parseMarker (ylist (yget entity "markers")) with _ | mrs
    · simp [parseEntity, hs, hm] at he
    · simp only [parseEntity, hs, hm, Option.some.injEq, Prod.mk.injEq] at he
      obtain ⟨he1, -⟩ := he
      subst he1
      simp [h, asNumD]

/-- Witness for C9: a concrete entity node carrying only a name parses
with the default alpha `1/10`. -/
theorem parseEntity_default_alpha_witness :
    yget (YNode.map [("entity", YNode.scalar (YScalar.str "x"))]) "filterAlpha" =
        YNode.undef ∧
      (Entity.mk "x" ⟨1 / 10⟩ [] []).filterConfig.alpha = 1 / 10 :=
  ⟨rfl,
    parseEntity_default_alpha (YNode.map [("entity", YNode.scalar (YScalar.str "x"))])
      rfl (Entity.mk "x" ⟨1 / 10⟩ [] []) [] rfl⟩

/-- Claim C10: loading a second document into a `Config` that already
holds entities appends rather than replaces — after two successful
`loadFromString` calls, `entities()` is the original list followed by the
first document's entities followed by the second document's entities. -/
theorem loadFromString_appends (cfg : Config) (n1 n2 : YNode)
    (c1 c2 : Config) (w1 w2 : List CfgWarn)
    (h1 : loadFromString cfg n1 = some (c1, w1))
    (h2 : loadFromString c1 n2 = some (c2, w2)) :
    ∃ l1 l2, docEntityList n1 = some l1 ∧ docEntityList n2 = some l2 ∧
      c2.entities = cfg.entities ++ l1 ++ l2 := by
  rcases hp1 : optMap parseEntity (ylist (yget n1 "entities")) with _ | p1
  · simp [loadFromString, parseRoot, hp1] at h1
  · rcases hp2 : optMap parseEntity (ylist (yget n2 "entities")) with _ | p2
    · simp [loadFromString, parseRoot, hp2] at h2
    · refine ⟨p1.map Prod.fst, p2.map Prod.fst, ?_, ?_, ?_⟩
      · simp [docEntityList, hp1]
      · simp [docEntityList, hp2]
      · simp only [loadFromString, parseRoot, hp1, Option.some.injEq,
          Prod.mk.injEq] at h1
        simp only [loadFromString, parseRoot, hp2, Option.some.injEq,
          Prod.mk.injEq] at h2
        obtain ⟨hc1, -⟩ := h1
        obtain ⟨hc2, -⟩ := h2
        subst hc1
        subst hc2
        simp [Config.entities]

/-- The default option set a fresh model `Config` carries; its value is
irrelevant to the entity-list claims. -/
def optsDefault : Options := parseOptions YNode.undef

/-- A fresh `Config` with no entities. -/
def cfg0 : Config := ⟨[], optsDefault⟩

/-- A one-entity document naming entity "a". -/
def docA : YNode :=
  YNode.map [("entities", YNode.seq
    [YNode.map [("entity", YNode.scalar (YScalar.str "a"))]])]

/-- A one-entity document naming entity "b". -/
def docB : YNode :=
  YNode.map [("entities", YNode.seq
    [YNode.map [("entity", YNode.scalar (YScalar.str "b"))]])]

/-- The entity document `docA` parses to. -/
def entA : Entity := ⟨"a", ⟨1 / 10⟩, [], []⟩

/-- The entity document `docB` parses to. -/
def entB : Entity := ⟨"b", ⟨1 / 10⟩, [], []⟩

/-- Witness for C10: loading `docA` then `docB` into a fresh `Config`
yields the concatenation of the two documents' entities. -/
theorem loadFromString_appends_witness :
    ∃ l1 l2, docEntityList docA = some l1 ∧ docEntityList docB = some l2 ∧
      (Config.mk [entA, entB] optsDefault).entities = cfg0.entities ++ l1 ++ l2 :=
  loadFromString_appends cfg0 docA docB ⟨[entA], optsDefault⟩
    ⟨[entA, entB], optsDefault⟩ [CfgWarn.noOptions] [CfgWarn.noOptions] rfl rfl
